import Mathlib

/-!
Shallow embedding of the Camect Home Assistant integration
(`custom_components/camect/camecthub.py`, `camera.py`, `binary_sensor.py`,
`switch.py`), focused on the event dispatcher `handle_camect_event`, the
derived camera/sensor/switch properties, and mode normalization.

Python dictionary values relevant here are either `None` or strings, modelled
by `PyVal`.  A dictionary key that may be missing is an `Option PyVal`
(`Option.none` = key absent, so indexing raises `KeyError`).  Exceptions are
modelled explicitly: each stateful operation returns the mutated state, the
list of observable effects already performed, and an `Option PyErr` holding
an exception that escaped (mutations performed before the raise persist, as
in Python).
-/

namespace Camect

/-- Python string/None values as they occur in the vendor event dictionaries. -/
inductive PyVal where
  | none
  | str (s : String)
deriving DecidableEq

/-- Exceptions that the embedded code can raise. -/
inductive PyErr where
  | keyError
  | typeError
deriving DecidableEq

/-- Python list-prefix test on characters, used to build the `in` operator. -/
def pyPrefOf : List Char → List Char → Bool
  | [], _ => true
  | _ :: _, [] => false
  | a :: as, b :: bs => a == b && pyPrefOf as bs

/-- Python substring occurrence on character lists. -/
def pySubOf : List Char → List Char → Bool
  | n, [] => pyPrefOf n []
  | n, h :: t => pyPrefOf n (h :: t) || pySubOf n t

/-- Python `sub in s` on strings: substring containment. -/
def pyStrIn (sub s : String) : Bool := pySubOf sub.data s.data

/-- Python `v or dflt` for a string-or-None value assigned to a string field:
`None` and the empty string are falsy. -/
def pyOr (v : PyVal) (dflt : String) : String :=
  match v with
  | PyVal.none => dflt
  | PyVal.str s => if s = "" then dflt else s

/-- From `homeassistant.const` (host framework): `ATTR_MODE = "mode"`. -/
def ATTR_MODE : String := "mode"

/-- Modelled from the spec: the repository's `const.py` (imported by
`camecthub.py`, `switch.py` and `binary_sensor.py`) is not among the staged
source files.  The spec fixes the mode enumeration as `default` / `home`. -/
def ATTR_MODE_DEFAULT : String := "default"

/-- Modelled from the spec: see `ATTR_MODE_DEFAULT`; the second recognized
mode value. -/
def ATTR_MODE_HOME : String := "home"

/-- Modelled from the spec: the event-type substring for alert events. -/
def ATTR_ALERT : String := "alert"

/-- Modelled from the spec: the event-type substring for camera-offline
events. -/
def ATTR_CAM_OFFLINE : String := "offline"

/-- Modelled from the spec: the event-type substring for camera-online
events. -/
def ATTR_CAM_ONLINE : String := "online"

/-- Modelled from the spec: the sentinel "unknown" label used when an alert
event carries no usable detected-object value. -/
def ATTR_UNKNOWN_OBJ : String := "unknown"

/-- Modelled from the spec: the fixed reason string passed with every vendor
write command (`enable_alert` / `disable_alert` / `set_mode`).  Its exact
value is defined in the missing `const.py`; no claim depends on the value,
only on it being one fixed string. -/
def ATTR_MODE_REASON : String := "homeassistant"

/-- A vendor push event, as the subset of dictionary keys the handler reads.
`Option.none` means the key is absent (indexing raises `KeyError`). -/
structure VendorEvent where
  type : Option PyVal
  desc : Option PyVal
  cam_id : Option PyVal
  cam_name : Option PyVal
  detected_obj : Option PyVal
deriving DecidableEq

/-- The per-camera state of `camera.Camera` that the event handler and the
derived views read or write.  `numMotionSensors` is the length of the
`motion_sensor` observer list (the observers themselves carry no state of
their own). -/
structure CamRecord where
  device_id : String
  is_alert_disabled : Bool
  disabled : Bool
  last_motion : Option ℚ
  last_detected_obj : String
  offline : Bool
  numMotionSensors : Nat
deriving DecidableEq

/-- The `CamectHub` session state the handler reads or writes.  `infoMode` is
the cached `self.info["mode"]` field; `numModeSwitches` is the length of the
`modeswitch` observer list. -/
structure HubState where
  id : String
  entity_id : String
  mode : String
  infoMode : PyVal
  numModeSwitches : Nat
  cameras : List CamRecord
deriving DecidableEq

/-- Observable side effects of the handler, in the order they are performed:
`schedule_update_ha_state` calls (dirty marks) on cameras, motion sensors and
mode switches, events fired on the host bus, and logger calls. -/
inductive Effect where
  | scheduleCam (device_id : String)
  | scheduleMotion (device_id : String) (sensor : Nat)
  | scheduleModeSwitch (i : Nat)
  | fireEvent (device_id : String) (conf_type : String)
  | logInfo
  | logWarning
  | logException
deriving DecidableEq

/-- Result of running a handler: the hub state after all performed mutations,
the effects performed, and the exception that escaped, if any. -/
structure HandleResult where
  hub : HubState
  effects : List Effect
  raised : Option PyErr
deriving DecidableEq

/-- `CamectHub.update_mode_property`: normalize the cached `info["mode"]`
into the two recognized modes, anything else becoming the default mode. -/
def update_mode_property (hub : HubState) : HubState :=
  match hub.infoMode with
  | PyVal.str s =>
      if s = ATTR_MODE_DEFAULT ∨ s = ATTR_MODE_HOME then { hub with mode := s }
      else { hub with mode := ATTR_MODE_DEFAULT }
  | PyVal.none => { hub with mode := ATTR_MODE_DEFAULT }

/-- The dirty marks performed for one matched camera in the alert branch:
the camera itself, then each of its motion sensors. -/
def camEffects (cam : CamRecord) : List Effect :=
  Effect.scheduleCam cam.device_id ::
    (List.range cam.numMotionSensors).map (Effect.scheduleMotion cam.device_id)

/-- The `for cam in self.cameras` loop of the alert branch.  Each iteration
re-reads `evt["cam_id"]` (KeyError when absent, TypeError when `None` is
tested for containment); on a match it sets `last_motion`, then reads
`evt["detected_obj"]` (KeyError when absent — `last_motion` keeps its new
value), sets `last_detected_obj` and marks the camera and its motion sensors
dirty.  An exception aborts the loop, leaving later cameras untouched. -/
def alertLoop (camIdVal dobjVal : Option PyVal) (now : ℚ) :
    List CamRecord → List CamRecord × List Effect × Option PyErr
  | [] => ([], [], Option.none)
  | cam :: rest =>
    match camIdVal with
    | Option.none => (cam :: rest, [], some PyErr.keyError)
    | some PyVal.none => (cam :: rest, [], some PyErr.typeError)
    | some (PyVal.str cid) =>
      if pyStrIn cid cam.device_id then
        let cam1 := { cam with last_motion := some now }
        match dobjVal with
        | Option.none => (cam1 :: rest, [], some PyErr.keyError)
        | some d =>
          let cam2 := { cam1 with last_detected_obj := pyOr d ATTR_UNKNOWN_OBJ }
          let r := alertLoop camIdVal dobjVal now rest
          (cam2 :: r.1, camEffects cam ++ r.2.1, r.2.2)
      else
        let r := alertLoop camIdVal dobjVal now rest
        (cam :: r.1, r.2.1, r.2.2)

/-- The `for cam in self.cameras` loop of the offline/online branches:
on a match set the offline flag to `b` and mark the camera dirty. -/
def camFlagLoop (camIdVal : Option PyVal) (b : Bool) :
    List CamRecord → List CamRecord × List Effect × Option PyErr
  | [] => ([], [], Option.none)
  | cam :: rest =>
    match camIdVal with
    | Option.none => (cam :: rest, [], some PyErr.keyError)
    | some PyVal.none => (cam :: rest, [], some PyErr.typeError)
    | some (PyVal.str cid) =>
      if pyStrIn cid cam.device_id then
        let r := camFlagLoop camIdVal b rest
        ({ cam with offline := b } :: r.1,
         Effect.scheduleCam cam.device_id :: r.2.1, r.2.2)
      else
        let r := camFlagLoop camIdVal b rest
        (cam :: r.1, r.2.1, r.2.2)

/-- `CamectHub.fire_camera_event`: build the device id from `evt["cam_id"]`
(KeyError when absent), log, and fire the domain event on the host bus. -/
def fire_camera_event (hub : HubState) (evt_type : String)
    (camIdVal : Option PyVal) : List Effect × Option PyErr :=
  match camIdVal with
  | Option.none => ([], some PyErr.keyError)
  | some PyVal.none =>
      ([Effect.logInfo, Effect.fireEvent hub.entity_id evt_type], Option.none)
  | some (PyVal.str cid) =>
      ([Effect.logInfo,
        Effect.fireEvent ("camera." ++ hub.id ++ "_" ++ cid) evt_type],
       Option.none)

/-- The offline/online branches: the logger call reads `evt["cam_name"]` and
`evt["cam_id"]` (KeyError when either is absent) before the loop, then the
flag loop runs and the domain event is fired. -/
def handleFlagBranch (hub : HubState) (evt : VendorEvent) (b : Bool)
    (tag : String) : HandleResult :=
  match evt.cam_name, evt.cam_id with
  | Option.none, _ => ⟨hub, [], some PyErr.keyError⟩
  | some _, Option.none => ⟨hub, [], some PyErr.keyError⟩
  | some _, some camId =>
    let r := camFlagLoop (some camId) b hub.cameras
    let hub2 := { hub with cameras := r.1 }
    match r.2.2 with
    | some e => ⟨hub2, Effect.logInfo :: r.2.1, some e⟩
    | Option.none =>
      let f := fire_camera_event hub2 tag (some camId)
      ⟨hub2, Effect.logInfo :: (r.2.1 ++ f.1), f.2⟩

/-- The body of `CamectHub.handle_camect_event` (inside the `try`): ordered
substring classification of `evt["type"]` over mode, alert, offline, online,
with an unmatched type logged and discarded. -/
def handleBody (hub : HubState) (evt : VendorEvent) (now : ℚ) : HandleResult :=
  match evt.type with
  | Option.none => ⟨hub, [], some PyErr.keyError⟩
  | some PyVal.none => ⟨hub, [], some PyErr.typeError⟩
  | some (PyVal.str ty) =>
    if pyStrIn ATTR_MODE ty then
      match evt.desc with
      | Option.none => ⟨hub, [], some PyErr.keyError⟩
      | some PyVal.none => ⟨hub, [Effect.logWarning], Option.none⟩
      | some (PyVal.str ds) =>
        if ds = ATTR_MODE_DEFAULT ∨ ds = ATTR_MODE_HOME then
          if pyStrIn hub.mode ds then ⟨hub, [], Option.none⟩
          else
            ⟨{ hub with mode := ds },
             (List.range hub.numModeSwitches).map Effect.scheduleModeSwitch,
             Option.none⟩
        else ⟨hub, [Effect.logWarning], Option.none⟩
    else if pyStrIn ATTR_ALERT ty then
      let r := alertLoop evt.cam_id evt.detected_obj now hub.cameras
      let hub2 := { hub with cameras := r.1 }
      match r.2.2 with
      | some e => ⟨hub2, r.2.1, some e⟩
      | Option.none =>
        let f := fire_camera_event hub2 ATTR_ALERT evt.cam_id
        ⟨hub2, r.2.1 ++ f.1, f.2⟩
    else if pyStrIn ATTR_CAM_OFFLINE ty then
      handleFlagBranch hub evt true ATTR_CAM_OFFLINE
    else if pyStrIn ATTR_CAM_ONLINE ty then
      handleFlagBranch hub evt false ATTR_CAM_ONLINE
    else ⟨hub, [Effect.logWarning], Option.none⟩

/-- `CamectHub.handle_camect_event`: the body wrapped in
`try ... except Exception`, which logs any escaped exception and returns
normally. -/
def handle_camect_event (hub : HubState) (evt : VendorEvent) (now : ℚ) :
    HandleResult :=
  let r := handleBody hub evt now
  match r.raised with
  | Option.none => r
  | some _ => ⟨r.hub, r.effects ++ [Effect.logException], Option.none⟩

/-- `binary_sensor.CameraMotionSensor.is_on`: true when `last_motion` is set
and lies strictly inside the trailing 20-second window (times in seconds). -/
def CameraMotionSensor.is_on (cam : CamRecord) (now : ℚ) : Bool :=
  match cam.last_motion with
  | Option.none => false
  | some t => if t > now - 20 then true else false

/-- `camera.Camera.available`. -/
def Camera.available (cam : CamRecord) : Bool := !cam.disabled && !cam.offline

/-- `camera.Camera.is_streaming`. -/
def Camera.is_streaming (cam : CamRecord) : Bool := !cam.disabled && !cam.offline

/-- `camera.Camera.is_recording`. -/
def Camera.is_recording (cam : CamRecord) : Bool := !cam.disabled && !cam.offline

/-- `camera.Camera.is_on`. -/
def Camera.is_on (cam : CamRecord) : Bool := !cam.disabled && !cam.offline

/-- `switch.CameraAlertSwitch.available`: delegates to the camera. -/
def CameraAlertSwitch.available (cam : CamRecord) : Bool := Camera.available cam

/-- `binary_sensor.CameraMotionSensor.available`: delegates to the camera. -/
def CameraMotionSensor.available (cam : CamRecord) : Bool := Camera.available cam

/-- `switch.CameraAlertSwitch.is_on`: alerts enabled. -/
def CameraAlertSwitch.is_on (cam : CamRecord) : Bool := !cam.is_alert_disabled

/-- A blocking vendor-client call issued through the executor. -/
structure ApiCall where
  command : String
  arg : String
  reason : String
deriving DecidableEq

/-- `switch.CameraAlertSwitch.async_turn_off`: issues the vendor
`disable_alert` call and performs no local state change (the camera record is
refreshed only by later polling). -/
def CameraAlertSwitch.async_turn_off (cam : CamRecord) :
    CamRecord × List ApiCall :=
  (cam, [⟨"disable_alert", cam.device_id, ATTR_MODE_REASON⟩])

/-- `switch.CameraAlertSwitch.async_turn_on`: issues the vendor
`enable_alert` call and performs no local state change. -/
def CameraAlertSwitch.async_turn_on (cam : CamRecord) :
    CamRecord × List ApiCall :=
  (cam, [⟨"enable_alert", cam.device_id, ATTR_MODE_REASON⟩])

/-- `switch.HubModeSwitch.is_on`: Python `self.hub.mode in ATTR_MODE_DEFAULT`
(substring containment of the mode in the string "default"). -/
def HubModeSwitch.is_on (hub : HubState) : Bool :=
  pyStrIn hub.mode ATTR_MODE_DEFAULT

/-- `switch.HubModeSwitch.async_turn_on`: issues `set_mode(default, reason)`
then re-normalizes the (cached) info mode. -/
def HubModeSwitch.async_turn_on (hub : HubState) : HubState × List ApiCall :=
  (update_mode_property hub, [⟨"set_mode", ATTR_MODE_DEFAULT, ATTR_MODE_REASON⟩])

/-- `switch.HubModeSwitch.async_turn_off`: issues `set_mode(home, reason)`
then re-normalizes the (cached) info mode. -/
def HubModeSwitch.async_turn_off (hub : HubState) : HubState × List ApiCall :=
  (update_mode_property hub, [⟨"set_mode", ATTR_MODE_HOME, ATTR_MODE_REASON⟩])

/-- How the alert branch rewrites one camera record when `evt["cam_id"]` is
the string `cid` and `evt["detected_obj"]` is present with value `d`. -/
def alertUpdate (cid : String) (d : PyVal) (now : ℚ) (cam : CamRecord) :
    CamRecord :=
  if pyStrIn cid cam.device_id then
    { cam with last_motion := some now,
               last_detected_obj := pyOr d ATTR_UNKNOWN_OBJ }
  else cam

/-- How the offline/online branches rewrite one camera record. -/
def flagUpdate (cid : String) (b : Bool) (cam : CamRecord) : CamRecord :=
  if pyStrIn cid cam.device_id then { cam with offline := b } else cam

/-- The dirty marks the alert branch performs, camera by camera. -/
def matchEffects (cid : String) : List CamRecord → List Effect
  | [] => []
  | cam :: rest =>
      (if pyStrIn cid cam.device_id then camEffects cam else []) ++
        matchEffects cid rest

/-- The dirty marks the offline/online branches perform, camera by camera. -/
def flagMatchEffects (cid : String) : List CamRecord → List Effect
  | [] => []
  | cam :: rest =>
      (if pyStrIn cid cam.device_id then [Effect.scheduleCam cam.device_id]
       else []) ++ flagMatchEffects cid rest

/-! Concrete states and events used to instantiate the theorems. -/

/-- A camera record whose vendor id is the bare `"cam456"`. -/
def camBare : CamRecord := ⟨"cam456", false, false, Option.none, "", false, 1⟩

/-- A camera record whose vendor id is the composite `"hub123-cam456"`. -/
def camComposite : CamRecord := ⟨"hub123-cam456", false, false, Option.none, "", false, 1⟩

/-- A camera record with vendor id `"cam1"`, alerts enabled, online. -/
def camOne : CamRecord := ⟨"cam1", false, false, Option.none, "", false, 1⟩

/-- A hub session holding only `camBare`. -/
def hubBare : HubState :=
  ⟨"camect_h1", "camect.camect_h1", ATTR_MODE_DEFAULT, PyVal.str ATTR_MODE_DEFAULT, 1, [camBare]⟩

/-- A hub session holding only `camComposite`. -/
def hubComposite : HubState :=
  ⟨"camect_h1", "camect.camect_h1", ATTR_MODE_DEFAULT, PyVal.str ATTR_MODE_DEFAULT, 1, [camComposite]⟩

/-- A hub session holding only `camOne`. -/
def hubOne : HubState :=
  ⟨"camect_h2", "camect.camect_h2", ATTR_MODE_DEFAULT, PyVal.str ATTR_MODE_DEFAULT, 1, [camOne]⟩

/-- A hub session with no cameras and one mode switch, in default mode. -/
def hubPlain : HubState :=
  ⟨"camect_h3", "camect.camect_h3", ATTR_MODE_DEFAULT, PyVal.str ATTR_MODE_DEFAULT, 1, []⟩

/-- An alert event whose `cam_id` is the composite `"hub123-cam456"`. -/
def evtAlertComposite : VendorEvent :=
  ⟨some (PyVal.str "alert"), Option.none, some (PyVal.str "hub123-cam456"),
   some (PyVal.str "Cam"), some (PyVal.str "person")⟩

/-- An alert event whose `cam_id` is the bare `"cam456"`. -/
def evtAlertBare : VendorEvent :=
  ⟨some (PyVal.str "alert"), Option.none, some (PyVal.str "cam456"),
   some (PyVal.str "Cam"), some (PyVal.str "person")⟩

/-- An alert event for `"cam1"` whose `detected_obj` key is absent. -/
def evtAlertNoObjKey : VendorEvent :=
  ⟨some (PyVal.str "alert"), Option.none, some (PyVal.str "cam1"),
   some (PyVal.str "Cam"), Option.none⟩

/-- An alert event for `"cam1"` whose `detected_obj` key is present with
value `None`. -/
def evtAlertNoneObj : VendorEvent :=
  ⟨some (PyVal.str "alert"), Option.none, some (PyVal.str "cam1"),
   some (PyVal.str "Cam"), some PyVal.none⟩

/-- A mode event announcing the home mode. -/
def evtModeHome : VendorEvent :=
  ⟨some (PyVal.str "mode"), some (PyVal.str ATTR_MODE_HOME), Option.none,
   Option.none, Option.none⟩

/-- An event with an unrecognized type tag. -/
def evtUnrecognized : VendorEvent :=
  ⟨some (PyVal.str "foo"), Option.none, Option.none, Option.none, Option.none⟩

/-! Helper lemmas. -/

theorem pyPrefOf_refl (l : List Char) : pyPrefOf l l = true := by
  induction l with
  | nil => rfl
  | cons a as ih => simp [pyPrefOf, ih]

theorem pyStrIn_refl (s : String) : pyStrIn s s = true := by
  unfold pyStrIn
  cases h : s.data with
  | nil => rfl
  | cons c t => simp [pySubOf, pyPrefOf_refl]

/-- The wrapped handler agrees with the body when the body does not raise. -/
theorem handle_eq_body (hub : HubState) (evt : VendorEvent) (now : ℚ)
    (h : (handleBody hub evt now).raised = Option.none) :
    handle_camect_event hub evt now = handleBody hub evt now := by
  simp only [handle_camect_event]
  rw [h]

theorem count_range_eq (i n : Nat) :
    (List.range n).count i = if i < n then 1 else 0 := by
  induction n with
  | zero => simp
  | succ k ih =>
    rw [List.range_succ, List.count_append, ih, List.count_singleton']
    split_ifs <;> omega

theorem count_scheduleModeSwitch (n i : Nat) (h : i < n) :
    ((List.range n).map Effect.scheduleModeSwitch).count
      (Effect.scheduleModeSwitch i) = 1 := by
  rw [List.count_map_of_injective _ _ (fun a b hab => by injection hab)]
  rw [count_range_eq]
  simp [h]

/-- The alert loop when `cam_id` is a string and `detected_obj` is present:
it rewrites every camera through `alertUpdate`, performs the per-match dirty
marks, and raises nothing. -/
theorem alertLoop_ok (cid : String) (d : PyVal) (now : ℚ)
    (cams : List CamRecord) :
    alertLoop (some (PyVal.str cid)) (some d) now cams =
      (cams.map (alertUpdate cid d now), matchEffects cid cams, Option.none) := by
  induction cams with
  | nil => rfl
  | cons cam rest ih =>
    by_cases h : pyStrIn cid cam.device_id
    · simp [alertLoop, matchEffects, alertUpdate, h, ih]
    · simp [alertLoop, matchEffects, alertUpdate, h, ih]

/-- The offline/online loop when `cam_id` is a string: it rewrites every
camera through `flagUpdate`, marks each match dirty, and raises nothing. -/
theorem camFlagLoop_ok (cid : String) (b : Bool) (cams : List CamRecord) :
    camFlagLoop (some (PyVal.str cid)) b cams =
      (cams.map (flagUpdate cid b), flagMatchEffects cid cams, Option.none) := by
  induction cams with
  | nil => rfl
  | cons cam rest ih =>
    by_cases h : pyStrIn cid cam.device_id
    · simp [camFlagLoop, flagMatchEffects, flagUpdate, h, ih]
    · simp [camFlagLoop, flagMatchEffects, flagUpdate, h, ih]

/-! Claim theorems. -/

/-- C1: `handle_camect_event` never propagates an exception to its caller,
for every event dictionary (malformed ones included): the wrapped call
always returns normally, and whenever the body raised internally the
exception is logged instead. -/
theorem handle_event_never_raises (hub : HubState) (evt : VendorEvent)
    (now : ℚ) :
    (handle_camect_event hub evt now).raised = Option.none ∧
    ((handleBody hub evt now).raised ≠ Option.none →
      Effect.logException ∈ (handle_camect_event hub evt now).effects) := by
  simp only [handle_camect_event]
  cases h : (handleBody hub evt now).raised with
  | none => simp [h]
  | some e => simp [h]

/-- C3: the motion-presence view is on exactly when `last_motion` is set and
`now - last_motion` is strictly below 20 seconds; at exactly 20 seconds or
beyond it is off.  The view is a pure function of the record and the clock. -/
theorem motion_presence_window (cam : CamRecord) (now : ℚ) :
    CameraMotionSensor.is_on cam now = true ↔
      ∃ t, cam.last_motion = some t ∧ now - t < 20 := by
  unfold CameraMotionSensor.is_on
  rcases h : cam.last_motion with _ | t
  · simp
  · simp only [h, Option.some.injEq]
    constructor
    · intro h1
      refine ⟨t, rfl, ?_⟩
      rcases Decidable.em (t > now - 20) with h2 | h2
      · linarith
      · simp [h2] at h1
    · rintro ⟨u, rfl, h2⟩
      have : t > now - 20 := by linarith
      simp [this]

/-- C4: availability is `enabled AND NOT offline`, and the streaming,
recording and on-state projections, the alert switch's availability and the
motion sensor's availability all return exactly that predicate, for every
camera record (hence after every mutation path). -/
theorem availability_single_predicate (cam : CamRecord) :
    Camera.available cam = (!cam.disabled && !cam.offline) ∧
    Camera.is_streaming cam = Camera.available cam ∧
    Camera.is_recording cam = Camera.available cam ∧
    Camera.is_on cam = Camera.available cam ∧
    CameraAlertSwitch.available cam = Camera.available cam ∧
    CameraMotionSensor.available cam = Camera.available cam :=
  ⟨rfl, rfl, rfl, rfl, rfl, rfl⟩

/-- C9: after `update_mode_property` the session mode equals the
vendor-reported mode field when it is one of the two recognized values, and
equals the default mode for every other reported value (`None` included). -/
theorem update_mode_property_normalizes (hub : HubState) :
    ((hub.infoMode = PyVal.str ATTR_MODE_DEFAULT ∨
        hub.infoMode = PyVal.str ATTR_MODE_HOME) →
      PyVal.str (update_mode_property hub).mode = hub.infoMode) ∧
    ((∀ s, hub.infoMode = PyVal.str s →
        ¬(s = ATTR_MODE_DEFAULT ∨ s = ATTR_MODE_HOME)) →
      (update_mode_property hub).mode = ATTR_MODE_DEFAULT) := by
  constructor
  · intro h
    rcases h with h | h <;> simp [update_mode_property, h]
  · intro h
    rcases hm : hub.infoMode with _ | s
    · simp [update_mode_property, hm]
    · have := h s hm
      simp [update_mode_property, hm, this]

/-- C7 (counterexample): turning off the alert toggle of a camera whose
alerts are enabled issues the disable-alert command, yet `is_on` still
returns `true` afterwards: the local alert-disabled field is not
resynchronized by the command, contradicting the claim that `is_on()`
returns `false` afterwards. -/
theorem alert_turn_off_no_resync_counterexample :
    (CameraAlertSwitch.async_turn_off camOne).2 =
      [⟨"disable_alert", "cam1", ATTR_MODE_REASON⟩] ∧
    CameraAlertSwitch.is_on (CameraAlertSwitch.async_turn_off camOne).1 = true :=
  ⟨rfl, rfl⟩

/-- C7 (amended): turning off the alert toggle issues the disable-alert
command with the camera's identifier and the fixed reason string, leaves the
local record unchanged, and `is_on` keeps reporting the pre-call value until
a poll refresh updates the record. -/
theorem alert_turn_off_behavior (cam : CamRecord) :
    (CameraAlertSwitch.async_turn_off cam).2 =
      [⟨"disable_alert", cam.device_id, ATTR_MODE_REASON⟩] ∧
    (CameraAlertSwitch.async_turn_off cam).1 = cam ∧
    CameraAlertSwitch.is_on (CameraAlertSwitch.async_turn_off cam).1 =
      !cam.is_alert_disabled :=
  ⟨rfl, rfl, rfl⟩

/-- C8: an event whose type contains none of the recognized substrings is
logged and discarded: no exception propagates, the session and camera state
are unchanged, and no domain event is fired. -/
theorem unrecognized_event_discarded (hub : HubState) (evt : VendorEvent)
    (now : ℚ) (ty : String)
    (hty : evt.type = some (PyVal.str ty))
    (h1 : pyStrIn ATTR_MODE ty = false)
    (h2 : pyStrIn ATTR_ALERT ty = false)
    (h3 : pyStrIn ATTR_CAM_OFFLINE ty = false)
    (h4 : pyStrIn ATTR_CAM_ONLINE ty = false) :
    handle_camect_event hub evt now = ⟨hub, [Effect.logWarning], Option.none⟩ := by
  have hb : handleBody hub evt now = ⟨hub, [Effect.logWarning], Option.none⟩ := by
    simp [handleBody, hty, h1, h2, h3, h4]
  rw [handle_eq_body hub evt now (by rw [hb])]
  exact hb

/-- C8 (witness): the concrete event with type `"foo"` is discarded with a
warning. -/
theorem unrecognized_event_discarded_witness :
    handle_camect_event hubPlain evtUnrecognized 0 =
      ⟨hubPlain, [Effect.logWarning], Option.none⟩ :=
  unrecognized_event_discarded hubPlain evtUnrecognized 0 "foo" rfl
    (by decide) (by decide) (by decide) (by decide)

/-- C10: the hub mode switch reads ON exactly in the default mode, its
`turn_on` issues `set_mode` with the default mode and its `turn_off` issues
`set_mode` with the home mode (the opposite polarity of the class
docstring's on-is-Home convention). -/
theorem hub_mode_switch_polarity (hub : HubState)
    (h : hub.mode = ATTR_MODE_DEFAULT ∨ hub.mode = ATTR_MODE_HOME) :
    (HubModeSwitch.is_on hub = true ↔ hub.mode = ATTR_MODE_DEFAULT) ∧
    (HubModeSwitch.async_turn_on hub).2 =
      [⟨"set_mode", ATTR_MODE_DEFAULT, ATTR_MODE_REASON⟩] ∧
    (HubModeSwitch.async_turn_off hub).2 =
      [⟨"set_mode", ATTR_MODE_HOME, ATTR_MODE_REASON⟩] := by
  refine ⟨?_, rfl, rfl⟩
  rcases h with h | h
  · simp [HubModeSwitch.is_on, h, pyStrIn_refl]
  · simp [HubModeSwitch.is_on, h]
    decide

/-- C10 (witness): in the default mode the switch reads ON. -/
theorem hub_mode_switch_polarity_witness :
    HubModeSwitch.is_on hubPlain = true :=
  (hub_mode_switch_polarity hubPlain (Or.inl rfl)).1.mpr rfl

/-- C5: for an event whose type contains "mode": (i) a description equal to
the current mode leaves the session unchanged and marks no mode switch
dirty; (ii) a description that is the other recognized mode updates the mode
and marks every mode switch dirty exactly once; (iii) an unrecognized
description logs a warning and leaves the state unchanged. -/
theorem mode_event_classification (hub : HubState) (evt : VendorEvent)
    (now : ℚ) (ty : String)
    (hty : evt.type = some (PyVal.str ty))
    (hmode : pyStrIn ATTR_MODE ty = true) :
    (∀ ds, evt.desc = some (PyVal.str ds) → ds = hub.mode →
      (handle_camect_event hub evt now).hub = hub ∧
      (∀ i, Effect.scheduleModeSwitch i ∉
        (handle_camect_event hub evt now).effects) ∧
      (handle_camect_event hub evt now).raised = Option.none) ∧
    (∀ ds, evt.desc = some (PyVal.str ds) →
      ((hub.mode = ATTR_MODE_DEFAULT ∧ ds = ATTR_MODE_HOME) ∨
        (hub.mode = ATTR_MODE_HOME ∧ ds = ATTR_MODE_DEFAULT)) →
      handle_camect_event hub evt now =
        ⟨{ hub with mode := ds },
          (List.range hub.numModeSwitches).map Effect.scheduleModeSwitch,
          Option.none⟩ ∧
      (∀ i, i < hub.numModeSwitches →
        ((List.range hub.numModeSwitches).map Effect.scheduleModeSwitch).count
          (Effect.scheduleModeSwitch i) = 1)) ∧
    (∀ d, evt.desc = some d →
      (∀ s, d = PyVal.str s → ¬(s = ATTR_MODE_DEFAULT ∨ s = ATTR_MODE_HOME)) →
      handle_camect_event hub evt now =
        ⟨hub, [Effect.logWarning], Option.none⟩) := by
  refine ⟨?_, ?_, ?_⟩
  · intro ds hds hdm
    subst hdm
    have hb : handleBody hub evt now = ⟨hub, [], Option.none⟩ ∨
        handleBody hub evt now = ⟨hub, [Effect.logWarning], Option.none⟩ := by
      by_cases hrec : hub.mode = ATTR_MODE_DEFAULT ∨ hub.mode = ATTR_MODE_HOME
      · left
        simp [handleBody, hty, hmode, hds, hrec, pyStrIn_refl]
      · right
        simp [handleBody, hty, hmode, hds, hrec]
    rcases hb with hb | hb <;>
      rw [handle_eq_body hub evt now (by rw [hb])] <;> simp [hb]
  · intro ds hds hrec
    have hne : pyStrIn hub.mode ds = false := by
      rcases hrec with ⟨h1, h2⟩ | ⟨h1, h2⟩ <;> rw [h1, h2] <;> decide
    have hrec2 : ds = ATTR_MODE_DEFAULT ∨ ds = ATTR_MODE_HOME := by
      rcases hrec with ⟨h1, h2⟩ | ⟨h1, h2⟩
      · exact Or.inr h2
      · exact Or.inl h2
    have hb : handleBody hub evt now =
        ⟨{ hub with mode := ds },
          (List.range hub.numModeSwitches).map Effect.scheduleModeSwitch,
          Option.none⟩ := by
      simp [handleBody, hty, hmode, hds, hrec2, hne]
    refine ⟨?_, ?_⟩
    · rw [handle_eq_body hub evt now (by rw [hb])]
      exact hb
    · intro i hi
      exact count_scheduleModeSwitch _ i hi
  · intro d hd hnr
    have hb : handleBody hub evt now =
        ⟨hub, [Effect.logWarning], Option.none⟩ := by
      rcases d with _ | s
      · simp [handleBody, hty, hmode, hd]
      · have hs := hnr s rfl
        simp [handleBody, hty, hmode, hd, hs]
    rw [handle_eq_body hub evt now (by rw [hb])]
    exact hb

/-- C5 (witness): a "mode" event with description "home" arriving in the
default mode updates the mode and marks the one mode switch dirty once. -/
theorem mode_event_classification_witness :
    handle_camect_event hubPlain evtModeHome 0 =
      ⟨{ hubPlain with mode := ATTR_MODE_HOME }, [Effect.scheduleModeSwitch 0],
        Option.none⟩ := by
  have h := ((mode_event_classification hubPlain evtModeHome 0 "mode" rfl
      (by decide)).2.1 ATTR_MODE_HOME rfl (Or.inl ⟨rfl, rfl⟩)).1
  rw [h]
  rfl

/-- C2 (counterexample): the record identifier `"cam456"` is a substring of
the event's `cam_id = "hub123-cam456"`, yet the handler leaves the record
(and the whole hub) unchanged: the code tests containment in the opposite
direction, so the claim's example does not match. -/
theorem matching_direction_counterexample :
    pyStrIn "cam456" "hub123-cam456" = true ∧
    (handle_camect_event hubBare evtAlertComposite 5).hub = hubBare ∧
    camBare.last_motion = Option.none := by
  refine ⟨by decide, ?_, rfl⟩
  rfl

/-- C2 (amended): event-to-camera matching is substring containment in the
direction "the event's `cam_id` field contained within the record's
identifier": alert, offline and online events rewrite exactly those records
whose identifier contains the event's `cam_id` as a substring. -/
theorem matching_direction (hub : HubState) (evt : VendorEvent) (now : ℚ)
    (ty cid : String)
    (hty : evt.type = some (PyVal.str ty))
    (hcid : evt.cam_id = some (PyVal.str cid))
    (hm : pyStrIn ATTR_MODE ty = false) :
    (∀ d, pyStrIn ATTR_ALERT ty = true → evt.detected_obj = some d →
      (handle_camect_event hub evt now).hub.cameras =
        hub.cameras.map (alertUpdate cid d now)) ∧
    (∀ nv, pyStrIn ATTR_ALERT ty = false → pyStrIn ATTR_CAM_OFFLINE ty = true →
      evt.cam_name = some nv →
      (handle_camect_event hub evt now).hub.cameras =
        hub.cameras.map (flagUpdate cid true)) ∧
    (∀ nv, pyStrIn ATTR_ALERT ty = false →
      pyStrIn ATTR_CAM_OFFLINE ty = false → pyStrIn ATTR_CAM_ONLINE ty = true →
      evt.cam_name = some nv →
      (handle_camect_event hub evt now).hub.cameras =
        hub.cameras.map (flagUpdate cid false)) := by
  refine ⟨?_, ?_, ?_⟩
  · intro d ha hd
    have hb : handleBody hub evt now =
        ⟨{ hub with cameras := hub.cameras.map (alertUpdate cid d now) },
          matchEffects cid hub.cameras ++
            [Effect.logInfo,
             Effect.fireEvent ("camera." ++ hub.id ++ "_" ++ cid) ATTR_ALERT],
          Option.none⟩ := by
      simp [handleBody, hty, hm, ha, hcid, hd, alertLoop_ok, fire_camera_event]
    rw [handle_eq_body hub evt now (by rw [hb])]
    rw [hb]
  · intro nv ha hoff hname
    have hb : handleBody hub evt now =
        ⟨{ hub with cameras := hub.cameras.map (flagUpdate cid true) },
          Effect.logInfo :: (flagMatchEffects cid hub.cameras ++
            [Effect.logInfo,
             Effect.fireEvent ("camera." ++ hub.id ++ "_" ++ cid)
               ATTR_CAM_OFFLINE]),
          Option.none⟩ := by
      simp [handleBody, hty, hm, ha, hoff, handleFlagBranch, hname, hcid,
        camFlagLoop_ok, fire_camera_event]
    rw [handle_eq_body hub evt now (by rw [hb])]
    rw [hb]
  · intro nv ha hoff hon hname
    have hb : handleBody hub evt now =
        ⟨{ hub with cameras := hub.cameras.map (flagUpdate cid false) },
          Effect.logInfo :: (flagMatchEffects cid hub.cameras ++
            [Effect.logInfo,
             Effect.fireEvent ("camera." ++ hub.id ++ "_" ++ cid)
               ATTR_CAM_ONLINE]),
          Option.none⟩ := by
      simp [handleBody, hty, hm, ha, hoff, hon, handleFlagBranch, hname, hcid,
        camFlagLoop_ok, fire_camera_event]
    rw [handle_eq_body hub evt now (by rw [hb])]
    rw [hb]

/-- C2 (witness): an alert event with the bare `cam_id = "cam456"` updates
the record whose identifier is the composite `"hub123-cam456"`. -/
theorem matching_direction_witness :
    (handle_camect_event hubComposite evtAlertBare 5).hub.cameras =
      [{ camComposite with last_motion := some 5,
                           last_detected_obj := "person" }] := by
  have h := (matching_direction hubComposite evtAlertBare 5 "alert" "cam456"
      rfl rfl (by decide)).1 (PyVal.str "person") (by decide) rfl
  rw [h]
  rfl

/-- C6 (counterexample): an alert event whose `detected_obj` key is absent
raises a `KeyError` inside the handler: the matched record keeps its old
`last_detected_obj` (not the sentinel "unknown"), although `last_motion` was
already set, and no domain event is forwarded — only the exception is
logged. -/
theorem alert_missing_obj_counterexample :
    handle_camect_event hubOne evtAlertNoObjKey 7 =
      ⟨{ hubOne with cameras := [{ camOne with last_motion := some 7 }] },
        [Effect.logException], Option.none⟩ ∧
    ({ camOne with last_motion := some 7 } : CamRecord).last_detected_obj ≠
      ATTR_UNKNOWN_OBJ := by
  refine ⟨rfl, by decide⟩

/-- C6 (amended): for an alert event whose `cam_id` is a string and whose
`detected_obj` key is present, every matching record gets `last_motion` set
to the processing time and `last_detected_obj` set to the detected object,
or to the sentinel "unknown" when the value is `None` or empty; the record
and each of its motion sensors are marked dirty, and the domain event is
always fired afterwards, matched record or not. -/
theorem alert_event_fanout (hub : HubState) (evt : VendorEvent) (now : ℚ)
    (ty cid : String) (d : PyVal)
    (hty : evt.type = some (PyVal.str ty))
    (hm : pyStrIn ATTR_MODE ty = false)
    (ha : pyStrIn ATTR_ALERT ty = true)
    (hcid : evt.cam_id = some (PyVal.str cid))
    (hd : evt.detected_obj = some d) :
    handle_camect_event hub evt now =
      ⟨{ hub with cameras := hub.cameras.map (alertUpdate cid d now) },
        matchEffects cid hub.cameras ++
          [Effect.logInfo,
           Effect.fireEvent ("camera." ++ hub.id ++ "_" ++ cid) ATTR_ALERT],
        Option.none⟩ := by
  have hb : handleBody hub evt now =
      ⟨{ hub with cameras := hub.cameras.map (alertUpdate cid d now) },
        matchEffects cid hub.cameras ++
          [Effect.logInfo,
           Effect.fireEvent ("camera." ++ hub.id ++ "_" ++ cid) ATTR_ALERT],
        Option.none⟩ := by
    simp [handleBody, hty, hm, ha, hcid, hd, alertLoop_ok, fire_camera_event]
  rw [handle_eq_body hub evt now (by rw [hb])]
  exact hb

/-- C6 (witness): an alert event for `"cam1"` whose `detected_obj` is
present with value `None` sets the sentinel "unknown" label, sets
`last_motion`, marks the record and its motion sensor dirty, and fires the
domain event. -/
theorem alert_event_fanout_witness :
    handle_camect_event hubOne evtAlertNoneObj 7 =
      ⟨{ hubOne with cameras :=
            [{ camOne with last_motion := some 7,
                           last_detected_obj := ATTR_UNKNOWN_OBJ }] },
        [Effect.scheduleCam "cam1", Effect.scheduleMotion "cam1" 0,
         Effect.logInfo, Effect.fireEvent "camera.camect_h2_cam1" ATTR_ALERT],
        Option.none⟩ := by
  have h := alert_event_fanout hubOne evtAlertNoneObj 7 "alert" "cam1"
      PyVal.none rfl (by decide) (by decide) rfl rfl
  rw [h]
  rfl

end Camect
